import Mathlib

/-!
Verification of the Hii Aimouse custom driver (`ai_mouse.py`).

Shallow embedding of:
* the per-listener HID button-state machine of `monitor_mouse`
  (press/release debouncing over raw report codes 33..38),
* the backend helpers `set_mouse_speed`, `toggle_dpi`, `stop_voice_recording`,
* the config layer `load_config` / `save_config`, the default profile,
  and the profile mutations `MouseApp.del_profile` / `MouseApp.save_all`.

File IO and JSON (de)serialisation are external collaborators; `save_config`
is modelled as producing the JSON value of the global config and `load_config`
as consuming an optional such value (`none` = file absent or unparsable,
matching the silently-swallowed exceptions in the source).
-/

namespace AiMouse

/-- The three logical buttons, keyed `"mic"`, `"search"`, `"side"` in the
source (`execute_button_press` arguments and GUI rows). -/
inductive Button : Type
  | mic
  | search
  | side
deriving DecidableEq

/-- A logical event dispatched by the listener loop: `press b` models a call
`execute_button_press(key)` and `release b` a call `execute_button_release(key)`. -/
inductive Event : Type
  | press : Button → Event
  | release : Button → Event
deriving DecidableEq

/-- The raw HID "down" code of each button: `33` mic, `35` search, `37` side
(`monitor_mouse`, the `if key in [33, 35, 37]` branch). -/
def downCode : Button → Nat
  | .mic => 33
  | .search => 35
  | .side => 37

/-- The raw HID "up" code of each button: `34`, `36`, `38`
(`monitor_mouse`, the `elif key in [34, 36, 38]` branch, `original_key = key - 1`). -/
def upCode : Button → Nat
  | .mic => 34
  | .search => 36
  | .side => 38

/-- The per-listener debounce state: `pressed_flags = {33: False, 35: False, 37: False}`.
`f33`, `f35`, `f37` are the values stored under keys 33, 35, 37. -/
structure PressedFlags : Type where
  f33 : Bool
  f35 : Bool
  f37 : Bool
deriving DecidableEq

/-- The stored flag for a button's down code: `pressed_flags.get(downCode b, False)`. -/
def downFlag (b : Button) (f : PressedFlags) : Bool :=
  match b with
  | .mic => f.f33
  | .search => f.f35
  | .side => f.f37

/-- The initial flag map of a freshly started listener: all three flags `False`. -/
def initFlags : PressedFlags := ⟨false, false, false⟩

/-- The event code of a raw report: `key = data[5]` (only read when `len(data) > 5`;
`getD` supplies an irrelevant default outside that guard). -/
def reportKey (data : List Nat) : Nat := data.getD 5 0

/-- One iteration of the `monitor_mouse` loop body on a raw report `data`:
if `data and len(data) > 5`, inspect `key = data[5]`; a down code in
`[33, 35, 37]` dispatches a press only when its stored flag is false and sets
the flag; an up code in `[34, 36, 38]` dispatches the release of
`original_key = key - 1` only when that flag is true and clears it; anything
else is ignored.  Returns the updated flag map and the dispatched events. -/
def processReport (flags : PressedFlags) (data : List Nat) : PressedFlags × List Event :=
  if 5 < data.length then
    if reportKey data = 33 then
      if flags.f33 = false then ({ flags with f33 := true }, [.press .mic]) else (flags, [])
    else if reportKey data = 35 then
      if flags.f35 = false then ({ flags with f35 := true }, [.press .search]) else (flags, [])
    else if reportKey data = 37 then
      if flags.f37 = false then ({ flags with f37 := true }, [.press .side]) else (flags, [])
    else if reportKey data = 34 then
      if flags.f33 = true then ({ flags with f33 := false }, [.release .mic]) else (flags, [])
    else if reportKey data = 36 then
      if flags.f35 = true then ({ flags with f35 := false }, [.release .search]) else (flags, [])
    else if reportKey data = 38 then
      if flags.f37 = true then ({ flags with f37 := false }, [.release .side]) else (flags, [])
    else (flags, [])
  else (flags, [])

/-- The listener's state machine run over a finite sequence of raw reports,
returning the final flag map and the concatenated dispatched events. -/
def runMachine (flags : PressedFlags) : List (List Nat) → PressedFlags × List Event
  | [] => (flags, [])
  | d :: ds =>
    ((runMachine (processReport flags d).1 ds).1,
      (processReport flags d).2 ++ (runMachine (processReport flags d).1 ds).2)

/-- The number of released-to-pressed transitions of button `b`'s stored flag
along a report sequence (the spec's notion a press dispatch is counted against). -/
def pressTransitions (b : Button) (flags : PressedFlags) : List (List Nat) → Nat
  | [] => 0
  | d :: ds =>
    (if downFlag b flags = false ∧ downFlag b (processReport flags d).1 = true then 1 else 0)
      + pressTransitions b (processReport flags d).1 ds

set_option maxHeartbeats 2000000 in
lemma press_count_step (b : Button) (flags : PressedFlags) (data : List Nat) :
    ((processReport flags data).2).count (Event.press b)
      = if downFlag b flags = false ∧ downFlag b (processReport flags data).1 = true
        then 1 else 0 := by
  obtain ⟨x, y, z⟩ := flags
  unfold processReport
  split_ifs <;> cases b <;> cases x <;> cases y <;> cases z <;>
    simp_all [downFlag, List.count_cons, List.count_nil]

lemma press_count_run (b : Button) (flags : PressedFlags) (reports : List (List Nat)) :
    ((runMachine flags reports).2).count (Event.press b)
      = pressTransitions b flags reports := by
  induction reports generalizing flags with
  | nil => simp [runMachine, pressTransitions]
  | cons d ds ih =>
    unfold runMachine pressTransitions
    rw [List.count_append, press_count_step, ih]

lemma press_step_fresh (b : Button) (flags : PressedFlags) (data : List Nat)
    (hlen : 5 < data.length) (hkey : reportKey data = downCode b)
    (hflag : downFlag b flags = false) :
    (processReport flags data).2 = [Event.press b]
      ∧ downFlag b (processReport flags data).1 = true := by
  obtain ⟨x, y, z⟩ := flags
  cases b <;> simp_all [processReport, downCode, downFlag]

lemma press_step_held (b : Button) (flags : PressedFlags) (data : List Nat)
    (hlen : 5 < data.length) (hkey : reportKey data = downCode b)
    (hflag : downFlag b flags = true) :
    processReport flags data = (flags, []) := by
  obtain ⟨x, y, z⟩ := flags
  cases b <;> simp_all [processReport, downCode, downFlag]

/-- Claim C1: starting from all flags false, a press for a button is dispatched
exactly once per released-to-pressed transition of its stored flag; a down code
dispatches a press only when the flag is false and sets it true, and an
identical down code arriving while the flag is true dispatches nothing. -/
theorem press_once_per_transition (b : Button) (reports : List (List Nat))
    (flags : PressedFlags) (data : List Nat) :
    ((runMachine initFlags reports).2).count (Event.press b)
        = pressTransitions b initFlags reports
      ∧ (5 < data.length → reportKey data = downCode b → downFlag b flags = false →
          (processReport flags data).2 = [Event.press b]
            ∧ downFlag b (processReport flags data).1 = true)
      ∧ (5 < data.length → reportKey data = downCode b → downFlag b flags = true →
          processReport flags data = (flags, [])) := by
  exact ⟨press_count_run b initFlags reports,
    fun hl hk hf => press_step_fresh b flags data hl hk hf,
    fun hl hk hf => press_step_held b flags data hl hk hf⟩

/-- Witness for C1 at concrete inputs: code 33 on fresh flags dispatches
`press mic` and a repeat of 33 while held dispatches nothing. -/
theorem press_once_per_transition_witness :
    (processReport initFlags [0, 0, 0, 0, 0, 33]).2 = [Event.press .mic]
      ∧ processReport ⟨true, false, false⟩ [0, 0, 0, 0, 0, 33]
          = (⟨true, false, false⟩, []) :=
  ⟨((press_once_per_transition .mic [] initFlags [0, 0, 0, 0, 0, 33]).2.1
      (by decide) (by decide) (by decide)).1,
    (press_once_per_transition .mic [] ⟨true, false, false⟩ [0, 0, 0, 0, 0, 33]).2.2
      (by decide) (by decide) (by decide)⟩

set_option maxHeartbeats 2000000 in
lemma release_step_mem (b : Button) (flags : PressedFlags) (data : List Nat)
    (h : Event.release b ∈ (processReport flags data).2) :
    downFlag b flags = true ∧ downFlag b (processReport flags data).1 = false := by
  obtain ⟨x, y, z⟩ := flags
  unfold processReport at h ⊢
  split_ifs at h ⊢ <;> cases b <;> cases x <;> cases y <;> cases z <;>
    simp_all [downFlag]

lemma release_step_unmatched (b : Button) (flags : PressedFlags) (data : List Nat)
    (hlen : 5 < data.length) (hkey : reportKey data = downCode b + 1)
    (hflag : downFlag b flags = false) :
    processReport flags data = (flags, []) := by
  obtain ⟨x, y, z⟩ := flags
  cases b <;> simp_all [processReport, downCode, downFlag]

lemma release_step_matched (b : Button) (flags : PressedFlags) (data : List Nat)
    (hlen : 5 < data.length) (hkey : reportKey data = downCode b + 1)
    (hflag : downFlag b flags = true) :
    (processReport flags data).2 = [Event.release b]
      ∧ downFlag b (processReport flags data).1 = false := by
  obtain ⟨x, y, z⟩ := flags
  cases b <;> simp_all [processReport, downCode, downFlag]

/-- Claim C2: a release is dispatched only when the stored flag of the matching
down code is true (and the dispatch clears it); an up code arriving while the
flag is false dispatches nothing and leaves the flag map unchanged; a handled
up code clears the flag. -/
theorem release_requires_press (b : Button) (flags : PressedFlags) (data : List Nat) :
    (Event.release b ∈ (processReport flags data).2 →
        downFlag b flags = true ∧ downFlag b (processReport flags data).1 = false)
      ∧ (5 < data.length → reportKey data = downCode b + 1 → downFlag b flags = false →
          processReport flags data = (flags, []))
      ∧ (5 < data.length → reportKey data = downCode b + 1 → downFlag b flags = true →
          (processReport flags data).2 = [Event.release b]
            ∧ downFlag b (processReport flags data).1 = false) := by
  exact ⟨fun h => release_step_mem b flags data h,
    fun hl hk hf => release_step_unmatched b flags data hl hk hf,
    fun hl hk hf => release_step_matched b flags data hl hk hf⟩

/-- Witness for C2 at concrete inputs: code 34 on fresh flags is a no-op, and
code 34 while flag 33 is held dispatches `release mic` and clears the flag. -/
theorem release_requires_press_witness :
    processReport initFlags [0, 0, 0, 0, 0, 34] = (initFlags, [])
      ∧ (processReport ⟨true, false, false⟩ [0, 0, 0, 0, 0, 34]).2
          = [Event.release .mic] :=
  ⟨(release_requires_press .mic initFlags [0, 0, 0, 0, 0, 34]).2.1
      (by decide) (by decide) (by decide),
    ((release_requires_press .mic ⟨true, false, false⟩ [0, 0, 0, 0, 0, 34]).2.2
      (by decide) (by decide) (by decide)).1⟩

/-- Claim C3: a report longer than 5 bytes whose byte 5 is 33, 35 or 37
dispatches the press of mic, search or side respectively (when that button is
released); each up code is its down code plus one and dispatches the release of
the same button (when held); and the code sequence 33, 33, 34 yields exactly
one `press mic` followed by one `release mic`. -/
theorem report_layout_dispatch (b : Button) (flags : PressedFlags) (data : List Nat) :
    upCode b = downCode b + 1
      ∧ (5 < data.length → reportKey data = downCode b → downFlag b flags = false →
          (processReport flags data).2 = [Event.press b])
      ∧ (5 < data.length → reportKey data = upCode b → downFlag b flags = true →
          (processReport flags data).2 = [Event.release b])
      ∧ (runMachine initFlags
            [[0, 0, 0, 0, 0, 33], [0, 0, 0, 0, 0, 33], [0, 0, 0, 0, 0, 34]]).2
          = [Event.press .mic, Event.release .mic] := by
  refine ⟨by cases b <;> rfl,
    fun hl hk hf => (press_step_fresh b flags data hl hk hf).1,
    fun hl hk hf => ?_,
    by decide⟩
  have hk' : reportKey data = downCode b + 1 := by
    rw [hk]; cases b <;> rfl
  exact (release_step_matched b flags data hl hk' hf).1

/-- Witness for C3 at concrete inputs: byte 5 = 35 presses search on fresh
flags; byte 5 = 38 releases side while held. -/
theorem report_layout_dispatch_witness :
    (processReport initFlags [0, 0, 0, 0, 0, 35]).2 = [Event.press .search]
      ∧ (processReport ⟨false, false, true⟩ [0, 0, 0, 0, 0, 38]).2
          = [Event.release .side] :=
  ⟨(report_layout_dispatch .search initFlags [0, 0, 0, 0, 0, 35]).2.1
      (by decide) (by decide) (by decide),
    (report_layout_dispatch .side ⟨false, false, true⟩ [0, 0, 0, 0, 0, 38]).2.2.1
      (by decide) (by decide) (by decide)⟩

/-- A button's action configuration: the `{"action": ..., "param": ...}` dict. -/
structure ButtonConfig : Type where
  action : String
  param : String
deriving DecidableEq

/-- A profile dict.  Button keys and DPI keys may be absent in persisted data
(`Option`); code reads them with `.get` defaults. -/
structure Profile : Type where
  mic : Option ButtonConfig
  search : Option ButtonConfig
  side : Option ButtonConfig
  dpi_fast : Option Int
  dpi_normal : Option Int
deriving DecidableEq

/-- `DEFAULT_PROFILE` from the source. -/
def DEFAULT_PROFILE : Profile where
  mic := some ⟨"voice_typing", ""⟩
  search := some ⟨"open_url", "https://www.google.com"⟩
  side := some ⟨"key_press", "alt+left"⟩
  dpi_fast := some 18
  dpi_normal := some 10

/-- The profiles dict as an insertion-ordered association list with unique
keys, mirroring a Python `dict`. -/
abbrev ProfileMap : Type := List (String × Profile)

/-- Dict lookup: `m[k]` / `k in m`. -/
def dlookup (m : ProfileMap) (k : String) : Option Profile :=
  match m with
  | [] => none
  | p :: t => if p.1 = k then some p.2 else dlookup t k

/-- Dict assignment `m[k] = v`: replace in place when the key exists,
append otherwise. -/
def dinsert (m : ProfileMap) (k : String) (v : Profile) : ProfileMap :=
  match m with
  | [] => [(k, v)]
  | p :: t => if p.1 = k then (k, v) :: t else p :: dinsert t k v

/-- Dict deletion `del m[k]` (keys are unique, so removing every match
coincides with removing the one entry). -/
def derase (m : ProfileMap) (k : String) : ProfileMap :=
  match m with
  | [] => []
  | p :: t => if p.1 = k then derase t k else p :: derase t k

/-- The in-memory `GLOBAL_CONFIG` dict.  `active_profile` is `Option` because
a config adopted wholesale from a file may lack that key (read back with
`.get("active_profile", "Mode A")`). -/
structure GlobalConfig : Type where
  active_profile : Option String
  profiles : ProfileMap
deriving DecidableEq

/-- The initial `GLOBAL_CONFIG` value from the source. -/
def GLOBAL_CONFIG_init : GlobalConfig where
  active_profile := some "Mode A"
  profiles := [("Mode A", DEFAULT_PROFILE)]

/-- A parsed JSON config file: either key may be absent. -/
structure ConfigData : Type where
  active_profile : Option String
  profiles : Option ProfileMap
deriving DecidableEq

/-- `save_config`: `json.dump(GLOBAL_CONFIG, f)` serialises the in-memory
config verbatim (file IO itself is external; its failure path returns False
without touching the config). -/
def save_config (g : GlobalConfig) : ConfigData where
  active_profile := g.active_profile
  profiles := g.profiles

/-- The `try` block of `load_config`: `file = none` models an absent or
unparsable config file (the exception is swallowed, `GLOBAL_CONFIG` kept);
when the parsed data has a `"profiles"` key the whole config is adopted
(`GLOBAL_CONFIG = data`). -/
def load_config_adopt (file : Option ConfigData) (g : GlobalConfig) : GlobalConfig :=
  match file with
  | some data =>
    match data.profiles with
    | some ps => { active_profile := data.active_profile, profiles := ps }
    | none => g
  | none => g

/-- `load_config`: after the `try` block (`load_config_adopt`),
`active = GLOBAL_CONFIG.get("active_profile", "Mode A")` is resolved,
synthesising `DEFAULT_PROFILE.copy()` under that name (and storing
`active_profile`) when it does not resolve.  Returns the new
`GLOBAL_CONFIG`. -/
def load_config (file : Option ConfigData) (g : GlobalConfig) : GlobalConfig :=
  if (dlookup (load_config_adopt file g).profiles
      ((load_config_adopt file g).active_profile.getD "Mode A")).isSome
  then load_config_adopt file g
  else { active_profile := some ((load_config_adopt file g).active_profile.getD "Mode A")
         profiles := dinsert (load_config_adopt file g).profiles
           ((load_config_adopt file g).active_profile.getD "Mode A") DEFAULT_PROFILE }

/-- `ACTIVE_SETTINGS` as set at the end of `load_config`:
`GLOBAL_CONFIG["profiles"][active]`. -/
def active_settings (g : GlobalConfig) : Option Profile :=
  dlookup g.profiles (g.active_profile.getD "Mode A")

/-- `set_mouse_speed`: `speed = max(1, min(20, int(speed)))`, the value then
handed to `SystemParametersInfoA` (the OS call is external and its failure is
swallowed; the function's observable effect is the clamped value). -/
def set_mouse_speed (speed : Int) : Int := max 1 (min 20 speed)

/-- `toggle_dpi` on the active settings and the `current_speed_mode` string:
returns the new mode and the raw speed handed to `set_mouse_speed`
(`dpi_fast` default 18 when leaving `"NORMAL"`, else `dpi_normal` default 10). -/
def toggle_dpi (settings : Profile) (mode : String) : String × Int :=
  if mode = "NORMAL" then ("FAST", settings.dpi_fast.getD 18)
  else ("NORMAL", settings.dpi_normal.getD 10)

/-- `stop_voice_recording` acting on the `MIC_IS_HELD` flag: returns the new
flag value and the console lines printed. -/
def stop_voice_recording (mic_is_held : Bool) : Bool × List String :=
  if mic_is_held then (false, ["🛑 停止收音，開始轉譯..."]) else (mic_is_held, [])

/-- `MouseApp.del_profile` acting on the config and the selected profile name
(`profile_var`): deleting `"Mode A"` only shows an error; otherwise, when the
user confirms, the profile is deleted and `change_profile` makes `"Mode A"`
the active selection.  Returns the new config and the new selection. -/
def del_profile (g : GlobalConfig) (selected : String) (confirmed : Bool) :
    GlobalConfig × String :=
  if selected = "Mode A" then (g, selected)
  else if confirmed then
    ({ active_profile := some "Mode A", profiles := derase g.profiles selected }, "Mode A")
  else (g, selected)

/-- The editable state of one `ButtonConfigRow`: the selected internal action,
the text entry, and the two DPI spinners. -/
structure RowState : Type where
  action : String
  entry : String
  dpi_fast : Int
  dpi_normal : Int

/-- `ButtonConfigRow.get_ui_data`: the button dict `{"action": ..., "param":
...}` (param kept only for `open_url` / `key_press`), plus the DPI pair when
the action is `toggle_dpi`. -/
def get_ui_data (r : RowState) : ButtonConfig × Option (Int × Int) :=
  (⟨r.action, if r.action = "open_url" ∨ r.action = "key_press" then r.entry else ""⟩,
    if r.action = "toggle_dpi" then some (r.dpi_fast, r.dpi_normal) else none)

/-- The profile dict built by `MouseApp.save_all`:
`{**new_data, **dpi_settings}` where `new_data` holds the three rows' button
dicts (rows iterate in insertion order mic, search, side) and `dpi_settings`
starts from the current profile's DPI values (defaults 18/10) and is
overwritten by each row that reports DPI data, so the last such row wins. -/
def save_all_profile (current_data : Profile)
    (mic_row search_row side_row : RowState) : Profile :=
  let dpi0 : Int × Int := (current_data.dpi_fast.getD 18, current_data.dpi_normal.getD 10)
  let dpi := ((get_ui_data side_row).2.getD
    ((get_ui_data search_row).2.getD ((get_ui_data mic_row).2.getD dpi0)))
  { mic := some (get_ui_data mic_row).1
    search := some (get_ui_data search_row).1
    side := some (get_ui_data side_row).1
    dpi_fast := some dpi.1
    dpi_normal := some dpi.2 }

lemma dlookup_derase_self (m : ProfileMap) (k : String) :
    dlookup (derase m k) k = none := by
  induction m with
  | nil => rfl
  | cons p t ih =>
    by_cases h : p.1 = k <;> simp [derase, dlookup, h, ih]

lemma dlookup_derase_ne (m : ProfileMap) (k k' : String) (h : k' ≠ k) :
    dlookup (derase m k) k' = dlookup m k' := by
  induction m with
  | nil => rfl
  | cons p t ih =>
    by_cases h1 : p.1 = k <;> by_cases h2 : p.1 = k' <;>
      simp_all [derase, dlookup]

lemma mem_dinsert (m : ProfileMap) (k : String) (v : Profile)
    (e : String × Profile) (he : e ∈ dinsert m k v) : e ∈ m ∨ e = (k, v) := by
  induction m with
  | nil => simp_all [dinsert]
  | cons p t ih =>
    by_cases h1 : p.1 = k
    · rw [dinsert, if_pos h1] at he
      rcases List.mem_cons.mp he with he | he
      · exact Or.inr he
      · exact Or.inl (List.mem_cons.mpr (Or.inr he))
    · rw [dinsert, if_neg h1] at he
      rcases List.mem_cons.mp he with he | he
      · exact Or.inl (List.mem_cons.mpr (Or.inl he))
      · rcases ih he with hm | hv
        · exact Or.inl (List.mem_cons.mpr (Or.inr hm))
        · exact Or.inr hv

/-- Claim C4: saving the global config and reloading the produced file yields
the identical structure (Lean structure equality is field-order-free), for
every config whose active profile resolves — the invariant the data model
states for `GlobalConfig`. -/
theorem save_load_roundtrip (g g0 : GlobalConfig)
    (h : (dlookup g.profiles (g.active_profile.getD "Mode A")).isSome = true) :
    load_config (some (save_config g)) g0 = g := by
  unfold load_config save_config load_config_adopt
  simp [h]

/-- Witness for C4 at the initial global config. -/
theorem save_load_roundtrip_witness :
    load_config (some (save_config GLOBAL_CONFIG_init)) GLOBAL_CONFIG_init
      = GLOBAL_CONFIG_init :=
  save_load_roundtrip GLOBAL_CONFIG_init GLOBAL_CONFIG_init (by decide)

/-- Claim C5: from mode `"NORMAL"`, `toggle_dpi` hands the profile's
`dpi_fast` (default 18) to `set_mouse_speed` and moves to `"FAST"`; from
`"FAST"` it hands `dpi_normal` (default 10) and moves to `"NORMAL"`; two
successive invocations restore the starting mode (zero invocations trivially
leave it unchanged). -/
theorem toggle_dpi_alternates (s : Profile) (m : String)
    (h : m = "NORMAL" ∨ m = "FAST") :
    toggle_dpi s "NORMAL" = ("FAST", s.dpi_fast.getD 18)
      ∧ toggle_dpi s "FAST" = ("NORMAL", s.dpi_normal.getD 10)
      ∧ (toggle_dpi s (toggle_dpi s m).1).1 = m := by
  rcases h with h | h <;> subst h <;>
    exact ⟨by simp [toggle_dpi], by simp [toggle_dpi], by simp [toggle_dpi]⟩

/-- Witness for C5: a double toggle from `"NORMAL"` on the default profile
restores `"NORMAL"`. -/
theorem toggle_dpi_alternates_witness :
    (toggle_dpi DEFAULT_PROFILE (toggle_dpi DEFAULT_PROFILE "NORMAL").1).1
      = "NORMAL" :=
  (toggle_dpi_alternates DEFAULT_PROFILE "NORMAL" (Or.inl rfl)).2.2

/-- Claim C6: the speed handed to the OS interface by `set_mouse_speed` lies
in [1, 20]; inputs below 1 are raised to 1, inputs above 20 lowered to 20, and
in-range inputs pass through unchanged. -/
theorem set_mouse_speed_clamped (s : Int) :
    1 ≤ set_mouse_speed s ∧ set_mouse_speed s ≤ 20
      ∧ (s < 1 → set_mouse_speed s = 1)
      ∧ (20 < s → set_mouse_speed s = 20)
      ∧ (1 ≤ s → s ≤ 20 → set_mouse_speed s = s) := by
  unfold set_mouse_speed
  omega

/-- Witness for C6: 0 is raised to 1, 25 lowered to 20, 7 passed through. -/
theorem set_mouse_speed_clamped_witness :
    set_mouse_speed 0 = 1 ∧ set_mouse_speed 25 = 20 ∧ set_mouse_speed 7 = 7 :=
  ⟨(set_mouse_speed_clamped 0).2.2.1 (by decide),
    (set_mouse_speed_clamped 25).2.2.2.1 (by decide),
    (set_mouse_speed_clamped 7).2.2.2.2 (by decide) (by decide)⟩

/-- Claim C7: with the config file absent, `load_config` leaves the in-memory
config at its default — active profile `"Mode A"` holding `dpi_fast = 18`,
`dpi_normal = 10` and the three default button configs (the model is total:
no error is surfaced). -/
theorem load_config_file_absent :
    load_config none GLOBAL_CONFIG_init = GLOBAL_CONFIG_init
      ∧ (load_config none GLOBAL_CONFIG_init).active_profile = some "Mode A"
      ∧ active_settings (load_config none GLOBAL_CONFIG_init) = some DEFAULT_PROFILE
      ∧ DEFAULT_PROFILE.dpi_fast = some 18
      ∧ DEFAULT_PROFILE.dpi_normal = some 10
      ∧ DEFAULT_PROFILE.mic = some ⟨"voice_typing", ""⟩
      ∧ DEFAULT_PROFILE.search = some ⟨"open_url", "https://www.google.com"⟩
      ∧ DEFAULT_PROFILE.side = some ⟨"key_press", "alt+left"⟩ := by
  decide

/-- Claim C8: `del_profile` always rejects deleting `"Mode A"` leaving
everything unchanged; deleting any other profile after confirmation removes
exactly that profile (other names look up unchanged) and resets the active
selection to `"Mode A"`. -/
theorem del_profile_spec (g : GlobalConfig) (sel : String) (c : Bool) :
    del_profile g "Mode A" c = (g, "Mode A")
      ∧ (sel ≠ "Mode A" →
          (del_profile g sel true).1.active_profile = some "Mode A"
            ∧ (del_profile g sel true).2 = "Mode A"
            ∧ dlookup (del_profile g sel true).1.profiles sel = none
            ∧ ∀ k, k ≠ sel →
                dlookup (del_profile g sel true).1.profiles k = dlookup g.profiles k) := by
  constructor
  · simp [del_profile]
  · intro hsel
    simp only [del_profile, if_neg hsel, if_pos rfl]
    exact ⟨rfl, rfl, dlookup_derase_self g.profiles sel,
      fun k hk => dlookup_derase_ne g.profiles sel k hk⟩

/-- A two-profile config used to witness C8. -/
def delTestConfig : GlobalConfig where
  active_profile := some "Mode B"
  profiles := [("Mode A", DEFAULT_PROFILE), ("Mode B", DEFAULT_PROFILE)]

/-- Witness for C8: deleting `"Mode B"` removes it, keeps `"Mode A"`, and
resets the selection; deleting `"Mode A"` is rejected. -/
theorem del_profile_spec_witness :
    del_profile delTestConfig "Mode A" true = (delTestConfig, "Mode A")
      ∧ dlookup (del_profile delTestConfig "Mode B" true).1.profiles "Mode B" = none
      ∧ dlookup (del_profile delTestConfig "Mode B" true).1.profiles "Mode A"
          = dlookup delTestConfig.profiles "Mode A" :=
  ⟨(del_profile_spec delTestConfig "Mode A" true).1,
    ((del_profile_spec delTestConfig "Mode B" true).2 (by decide)).2.2.1,
    ((del_profile_spec delTestConfig "Mode B" true).2 (by decide)).2.2.2
      "Mode A" (by decide)⟩

/-- A profile with every key absent, as a persisted file may legally contain. -/
def emptyProfile : Profile := ⟨none, none, none, none, none⟩

/-- A parsed config file whose only profile omits all three button keys. -/
def fileMissingButtons : ConfigData where
  active_profile := some "Mode A"
  profiles := some [("Mode A", emptyProfile)]

/-- Claim C9 counterexample: loading a file whose profile omits the button
keys leaves that profile without them — after `load_config` completes, not
every profile in the loaded config contains all three button configs. -/
theorem load_config_missing_buttons_cex :
    ¬ (∀ e ∈ (load_config (some fileMissingButtons) GLOBAL_CONFIG_init).profiles,
        e.2.mic.isSome = true ∧ e.2.search.isSome = true ∧ e.2.side.isSome = true) := by
  decide

/-- Claim C9 as amended: `load_config` adopts file profiles unchanged, so a
persisted profile omitting button keys stays incomplete (missing keys are
defaulted only at access time); every profile entry after `load_config` is
either an adopted entry or the synthesized `DEFAULT_PROFILE`, and the profiles
written by `save_all` — like `DEFAULT_PROFILE` — always carry all three button
keys. -/
theorem profile_buttons_populated_amended
    (cd : Profile) (r1 r2 r3 : RowState) (file : Option ConfigData) (g : GlobalConfig) :
    ((save_all_profile cd r1 r2 r3).mic.isSome = true
        ∧ (save_all_profile cd r1 r2 r3).search.isSome = true
        ∧ (save_all_profile cd r1 r2 r3).side.isSome = true)
      ∧ (DEFAULT_PROFILE.mic.isSome = true ∧ DEFAULT_PROFILE.search.isSome = true
          ∧ DEFAULT_PROFILE.side.isSome = true)
      ∧ (∀ e ∈ (load_config file g).profiles,
          e ∈ (load_config_adopt file g).profiles ∨ e.2 = DEFAULT_PROFILE) := by
  refine ⟨⟨rfl, rfl, rfl⟩, ⟨rfl, rfl, rfl⟩, fun e he => ?_⟩
  unfold load_config at he
  by_cases h : (dlookup (load_config_adopt file g).profiles
      ((load_config_adopt file g).active_profile.getD "Mode A")).isSome = true
  · rw [if_pos h] at he
    exact Or.inl he
  · rw [if_neg h] at he
    rcases mem_dinsert _ _ _ e he with hm | hv
    · exact Or.inl hm
    · exact Or.inr (by rw [hv])

/-- Witness for C9's amended statement: the incomplete profile loaded from
`fileMissingButtons` is itself an adopted entry. -/
theorem profile_buttons_populated_amended_witness :
    ("Mode A", emptyProfile)
        ∈ (load_config_adopt (some fileMissingButtons) GLOBAL_CONFIG_init).profiles
      ∨ ("Mode A", emptyProfile).2 = DEFAULT_PROFILE :=
  (profile_buttons_populated_amended emptyProfile ⟨"", "", 0, 0⟩ ⟨"", "", 0, 0⟩
      ⟨"", "", 0, 0⟩ (some fileMissingButtons) GLOBAL_CONFIG_init).2.2
    ("Mode A", emptyProfile) (by decide)

/-- Claim C10: `stop_voice_recording` is a no-op when the shared capture flag
is already false (no output, no state change), always leaves the flag false,
and calling it twice is equivalent to calling it once. -/
theorem stop_voice_recording_idempotent (b : Bool) :
    stop_voice_recording false = (false, [])
      ∧ (stop_voice_recording b).1 = false
      ∧ stop_voice_recording (stop_voice_recording b).1 = stop_voice_recording false := by
  cases b <;> exact ⟨rfl, rfl, rfl⟩

end AiMouse
